import Mathlib

/-!
Shallow embedding of the Post–Comment Correlation Engine of `src/app.py`
(Telegram Channel Analyzer).  The stateless correlation pipeline —
`extract_post_id_from_text`, `process_comment_message`,
`find_comments_for_post`, `get_post_comments`, `get_all_discussion_messages`
and `process_channel_posts_with_comments` — is translated to pure Lean
functions.  External effects (the Telethon client) become explicit
parameters: sender-name resolution is an injected `Nat → Option String`
(`none` = the lookup failed or the entity exposes no usable name), and the
discussion-group fetch is an injected `Nat → List TgMessage` returning the
raw message iteration for a group id.

Representation choices (each noted where it matters):
* Python strings are Lean `String`s; `str.strip`, slicing `[:n]` and
  `str.isspace` are re-implemented over the code-point list (`pyStrip`,
  `pySlice`, `pyIsSpace`) exactly as Python behaves on ASCII whitespace.
* Telethon message objects become the record `TgMessage`; an attribute the
  code probes with `hasattr`/truthiness becomes an `Option` field.
  `authorIsChannel` mirrors Telethon's "posted as the channel" flag; the
  code never reads it, and the field exists so that claims about it can be
  stated.
* Timestamps are `Nat` (UTC instants).  The source formats them with
  `strftime "%Y-%m-%d %H:%M:%S"`, an order-preserving presentation that the
  embedding keeps numeric.
* The `posts_data` dict keyed by `str(msg.id)` becomes an association list
  `List (Nat × PostWithComments)` built in the source's iteration order.
-/

set_option autoImplicit false

namespace TgApp

/-- Python `str.strip()` restricted to ASCII whitespace, over code points. -/
def pyStrip (s : String) : String :=
  String.mk (((s.toList.dropWhile Char.isWhitespace).reverse.dropWhile
    Char.isWhitespace).reverse)

/-- Python slice `s[:n]`, over code points. -/
def pySlice (n : Nat) (s : String) : String :=
  String.mk (s.toList.take n)

/-- Python `str.isspace()`: non-empty and all whitespace. -/
def pyIsSpace (s : String) : Bool :=
  !s.toList.isEmpty && s.toList.all Char.isWhitespace

/-- Media classes that `get_media_type` distinguishes by class-name
substring (`Photo`, `Video`, …); anything else falls to `other`. -/
inductive MediaKind where
  | photo | video | document | audio | sticker | poll | webpage | game | other
deriving DecidableEq, Repr

/-- `get_media_type` of `src/app.py` (lines 499–522): `None` media maps to
`"Текст"`, otherwise the class name picks the Russian label, with the
generic fallback `"Медиа"`. -/
def get_media_type : Option MediaKind → String
  | none => "Текст"
  | some .photo => "Фото"
  | some .video => "Видео"
  | some .document => "Документ"
  | some .audio => "Аудио"
  | some .sticker => "Стикер"
  | some .poll => "Опрос"
  | some .webpage => "Веб-страница"
  | some .game => "Игра"
  | some .other => "Медиа"

/-- Forward provenance header (`message.fwd_from`); an attribute the code
probes with `hasattr` is an `Option` field. -/
structure FwdHeader where
  channelId : Option Nat
  channelPost : Option Nat
deriving DecidableEq, Repr

/-- Normalized view of a Telethon message as `src/app.py` reads it. -/
structure TgMessage where
  id : Nat
  date : Nat
  /-- `message.message`; `""` when absent. -/
  text : String
  /-- `message.media`; `none` when absent or falsy. -/
  media : Option MediaKind
  /-- `message.reply_to.reply_to_msg_id`; `none` when `reply_to` is absent
  or carries no `reply_to_msg_id`. -/
  replyToMsgId : Option Nat
  /-- `message.fwd_from`; `none` when absent. -/
  fwdFrom : Option FwdHeader
  /-- `message.sender_id`; `none` when absent. -/
  senderId : Option Nat
  /-- Telethon's "posted as the channel" flag; never read by the code. -/
  authorIsChannel : Bool
  /-- `isinstance(message, MessageService)`. -/
  isService : Bool
  views : Nat
  /-- the `r.count` values of `message.reactions.results`; `[]` covers an
  absent or empty reactions block. -/
  reactions : List Nat
  forwards : Nat
deriving DecidableEq, Repr

/-- Output shape `CommentInfo` (author, date, text). -/
structure CommentInfo where
  author : String
  date : Nat
  text : String
deriving DecidableEq, Repr

/-- Output shape `PostInfo`. -/
structure PostInfo where
  date : Nat
  type : String
  views : Nat
  comments : Nat
  reactions : Nat
  forwards : Nat
  content : String
  url : String
deriving DecidableEq, Repr

/-- Output shape `PostWithComments`. -/
structure PostWithComments where
  post_info : PostInfo
  comments : List CommentInfo
deriving DecidableEq, Repr

/-- Python truthiness of an optional integer (`None` and `0` are falsy). -/
def optTruthy : Option Nat → Bool
  | none => false
  | some n => n != 0

/-- Digit run at the head of a character list (regex `\d+`, greedy). -/
def digitRun (cs : List Char) : List Char :=
  cs.takeWhile Char.isDigit

/-- Decimal value of a digit run (`int(match.group(1))`). -/
def digitsToNat (ds : List Char) : Nat :=
  ds.foldl (fun a c => a * 10 + (c.toNat - 48)) 0

/-- Python regex `\w` on the ASCII range: letters, digits, underscore. -/
def wordChar (c : Char) : Bool :=
  c.isAlphanum || c = '_'

/-- `re.search` for a pattern `<literal>(\d+)`: leftmost position where the
literal is followed by at least one digit; the capture is the maximal digit
run there. -/
def searchLitDigits (lit : List Char) : List Char → Option Nat
  | [] => none
  | c :: rest =>
    if lit.isPrefixOf (c :: rest) then
      let ds := digitRun ((c :: rest).drop lit.length)
      if ds.isEmpty then searchLitDigits lit rest else some (digitsToNat ds)
    else searchLitDigits lit rest

/-- `re.search` for `t\.me/\w+/(\d+)`.  Since `\w` cannot match `/`, the
greedy `\w+` always stands for the maximal word-character run, which must
then be followed by `/` and a digit. -/
def searchTmeUser : List Char → Option Nat
  | [] => none
  | c :: rest =>
    if "t.me/".toList.isPrefixOf (c :: rest) then
      let after := (c :: rest).drop 5
      let ws := after.takeWhile wordChar
      if ws.isEmpty then searchTmeUser rest
      else
        match after.drop ws.length with
        | '/' :: after2 =>
          let ds := digitRun after2
          if ds.isEmpty then searchTmeUser rest else some (digitsToNat ds)
        | _ => searchTmeUser rest
    else searchTmeUser rest

/-- `re.search` for `#(\d+)`. -/
def searchHash : List Char → Option Nat
  | [] => none
  | '#' :: rest =>
    let ds := digitRun rest
    if ds.isEmpty then searchHash rest else some (digitsToNat ds)
  | _ :: rest => searchHash rest

/-- `extract_post_id_from_text` of `src/app.py` (lines 397–420): empty text
yields `None`; otherwise the four patterns are tried in order, each searched
over the whole text, and the first pattern that matches anywhere wins. -/
def extract_post_id_from_text (text : String) (channelId : Nat) : Option Nat :=
  if text = "" then none
  else
    let cs := text.toList
    match searchLitDigits ("t.me/c/" ++ toString channelId ++ "/").toList cs with
    | some n => some n
    | none =>
      match searchTmeUser cs with
      | some n => some n
      | none =>
        match searchLitDigits ("/" ++ toString channelId ++ "/").toList cs with
        | some n => some n
        | none => searchHash cs

/-- Author-name resolution of `process_comment_message` (lines 326–339):
`"Unknown"` when `sender_id` is falsy, when the injected lookup fails, or
when the entity exposes no usable name (the lookup abstraction returns
`none` for the latter two). -/
def authorName (lookup : Nat → Option String) (m : TgMessage) : String :=
  match m.senderId with
  | none => "Unknown"
  | some s => if s = 0 then "Unknown" else (lookup s).getD "Unknown"

/-- The comment text computed by lines 346–357: the stripped message text,
falling back to the bracketed media label when the stripped text is empty
and media is present, and to `""` (the "drop" marker) when neither text nor
media exists. -/
def commentText (m : TgMessage) : String :=
  let text0 := pyStrip m.text
  if text0 = "" then
    match m.media with
    | some mk => "[" ++ get_media_type (some mk) ++ "]"
    | none => ""
  else text0

/-- `process_comment_message` of `src/app.py` (lines 323–372): strip the
text; an empty text falls back to the bracketed media label or, without
media, drops the message; whitespace-only text and the placeholder strings
`[Медиа]` / `[Комментарий]` are dropped; the surviving text is sliced to
500 code points. -/
def process_comment_message (lookup : Nat → Option String) (m : TgMessage) :
    Option CommentInfo :=
  let text1 := commentText m
  if text1 = "" then none
  else if pyIsSpace text1 then none
  else if text1 = "[Медиа]" ∨ text1 = "[Комментарий]" then none
  else some { author := authorName lookup m, date := m.date, text := pySlice 500 text1 }

/-- The forward-provenance test of method 2 (lines 447–451): `fwd_from`
present with `channel_id == channel_id` and `channel_post == post_id`. -/
def fwdMatch (m : TgMessage) (channelId postId : Nat) : Bool :=
  match m.fwdFrom with
  | none => false
  | some h => decide (h.channelId = some channelId) && decide (h.channelPost = some postId)

/-- One iteration body of `find_comments_for_post` (lines 437–460): the
`if / elif / elif` chain trying Reply, then Forward, then TextPattern, the
first branch whose guard holds deciding the outcome. -/
def candidate (lookup : Nat → Option String) (m : TgMessage)
    (postId channelId : Nat) : Option CommentInfo :=
  if m.replyToMsgId = some postId then
    process_comment_message lookup m
  else if fwdMatch m channelId postId then
    process_comment_message lookup m
  else if m.text ≠ "" ∧ extract_post_id_from_text m.text channelId = some postId then
    process_comment_message lookup m
  else
    none

/-- The loop of `find_comments_for_post`, carrying `processed_message_ids`
(`seen`): a message whose id was already seen is skipped, otherwise its id
is recorded and its candidate, if any, appended. -/
def find_comments_aux (lookup : Nat → Option String) (postId channelId : Nat) :
    List Nat → List TgMessage → List CommentInfo
  | _, [] => []
  | seen, m :: rest =>
    if m.id ∈ seen then find_comments_aux lookup postId channelId seen rest
    else
      match candidate lookup m postId channelId with
      | some c => c :: find_comments_aux lookup postId channelId (m.id :: seen) rest
      | none => find_comments_aux lookup postId channelId (m.id :: seen) rest

/-- `find_comments_for_post` of `src/app.py` (lines 422–471). -/
def find_comments_for_post (lookup : Nat → Option String)
    (discussionMessages : List TgMessage) (postId channelId : Nat) :
    List CommentInfo :=
  find_comments_aux lookup postId channelId [] discussionMessages

/-- `get_post_comments` of `src/app.py` (lines 473–497): a falsy discussion
group id short-circuits to the empty list. -/
def get_post_comments (lookup : Nat → Option String)
    (discussionGroupId : Option Nat) (postId channelId : Nat)
    (discussionMessages : List TgMessage) : List CommentInfo :=
  if optTruthy discussionGroupId then
    find_comments_for_post lookup discussionMessages postId channelId
  else []

/-- `get_all_discussion_messages` of `src/app.py` (lines 374–395): a falsy
group id yields `[]` without touching the client; otherwise the raw
iteration is limited to 500 messages and service messages are dropped. -/
def get_all_discussion_messages (discussionGroupId : Option Nat)
    (raw : Nat → List TgMessage) : List TgMessage :=
  match discussionGroupId with
  | none => []
  | some gid =>
    if gid = 0 then []
    else ((raw gid).take 500).filter (fun m => !m.isService)

/-- The post content before the empty-post fallback (lines 549–561):
stripped text, with a bracketed media label prefixed when media is
present. -/
def rawContent (m : TgMessage) : String :=
  let c0 := pyStrip m.text
  match m.media with
  | some mk =>
    if c0 ≠ "" then "[" ++ get_media_type (some mk) ++ "] " ++ c0
    else "[" ++ get_media_type (some mk) ++ "]"
  | none => c0

/-- The post-content construction of lines 549–564: `rawContent`, falling
back to the literal `[Пустой пост]` when nothing remains. -/
def buildContent (m : TgMessage) : String :=
  if rawContent m = "" then "[Пустой пост]" else rawContent m

/-- The permalink of lines 583–588: a username link when the channel has a
truthy username, else the `Пост #<id>` fallback. -/
def postUrl (channelUsername : Option String) (msgId : Nat) : String :=
  match channelUsername with
  | some u =>
    if u ≠ "" then "https://t.me/" ++ u ++ "/" ++ toString msgId
    else "Пост #" ++ toString msgId
  | none => "Пост #" ++ toString msgId

/-- The per-post body of `process_channel_posts_with_comments`
(lines 542–618): type, content, counters, permalink, and — when comments
are enabled, a discussion group exists and discussion messages were
fetched — the resolved comment list, whose length is the reported
`comments` counter. -/
def process_post (lookup : Nat → Option String) (channelId : Nat)
    (channelUsername : Option String) (discussionGroupId : Option Nat)
    (includeComments : Bool) (discussionMessages : List TgMessage)
    (m : TgMessage) : PostWithComments :=
  let postType :=
    match m.media with
    | some mk => get_media_type (some mk)
    | none => "Текст"
  let commentsList :=
    if includeComments && optTruthy discussionGroupId && !discussionMessages.isEmpty then
      get_post_comments lookup discussionGroupId m.id channelId discussionMessages
    else []
  { post_info :=
      { date := m.date
        type := postType
        views := m.views
        comments := commentsList.length
        reactions := m.reactions.foldl (· + ·) 0
        forwards := m.forwards
        content := pySlice 1000 (buildContent m)
        url := postUrl channelUsername m.id }
    comments := commentsList }

/-- `process_channel_posts_with_comments` of `src/app.py` (lines 524–628):
fetch the discussion messages once (only when comments are requested and a
discussion group id is truthy), then walk the posts in reversed order,
skipping service messages, producing one keyed record per post. -/
def process_channel_posts_with_comments (lookup : Nat → Option String)
    (messages : List TgMessage) (channelId : Nat)
    (channelUsername : Option String) (discussionGroupId : Option Nat)
    (includeComments : Bool) (raw : Nat → List TgMessage) :
    List (Nat × PostWithComments) :=
  let discussionMessages :=
    if includeComments && optTruthy discussionGroupId then
      get_all_discussion_messages discussionGroupId raw
    else []
  (messages.reverse.filter (fun m => !m.isService)).map
    (fun m => (m.id, process_post lookup channelId channelUsername
      discussionGroupId includeComments discussionMessages m))

/-- First-occurrence-by-id filter: the list of messages that survive the
`processed_message_ids` skip of `find_comments_for_post`, given the ids
already `seen`.  Used to state what the loop computes declaratively. -/
def dedupById : List Nat → List TgMessage → List TgMessage
  | _, [] => []
  | seen, m :: rest =>
    if m.id ∈ seen then dedupById seen rest
    else m :: dedupById (m.id :: seen) rest

/-- Replace the `authorIsChannel` flag of a message (the flag the resolver
is specified to consult and the code never reads). -/
def setAuthorIsChannel (b : Bool) (m : TgMessage) : TgMessage :=
  { m with authorIsChannel := b }

/-- Whether a character list contains the three-dot run `...`. -/
def hasTripleDot : List Char → Bool
  | '.' :: '.' :: '.' :: _ => true
  | _ :: rest => hasTripleDot rest
  | [] => false

/-- A visible ellipsis marker: the Unicode ellipsis `…` or an ASCII `...`
run anywhere in the string. -/
def hasEllipsisMarker (s : String) : Bool :=
  s.toList.any (fun c => c = '…') || hasTripleDot s.toList

/-- A sender lookup that always fails (every `get_entity` call raises or
the entity exposes no usable name). -/
def noLookup : Nat → Option String := fun _ => none

/-- Base discussion message for the concrete scenarios: plain text, no
media, no reply, no forward header, no sender. -/
def baseMsg (i d : Nat) (t : String) : TgMessage :=
  { id := i, date := d, text := t, media := none, replyToMsgId := none,
    fwdFrom := none, senderId := none, authorIsChannel := false,
    isService := false, views := 0, reactions := [], forwards := 0 }

/-- A message replying to post 100 whose text also carries the text-pattern
reference `#200` to a different post. -/
def msgC1 : TgMessage :=
  { baseMsg 5 7 "#200" with replyToMsgId := some 100 }

/-- A non-reply message forwarded from channel 1, post 100. -/
def msgFwd : TgMessage :=
  { baseMsg 6 4 "fwd" with
      fwdFrom := some { channelId := some 1, channelPost := some 100 } }

/-- A message matching no signal at all. -/
def msgPlain : TgMessage := baseMsg 7 2 "hello"

/-- Eleven distinct replies to post 100 with strictly descending dates. -/
def msgsC2 : List TgMessage :=
  (List.range 11).map
    (fun k => { baseMsg (k + 1) (11 - k) "ok" with replyToMsgId := some 100 })

/-- A message posted as the channel itself (the auto-forwarded copy of
post 100 of channel 1). -/
def msgC3 : TgMessage :=
  { baseMsg 8 3 "hi" with
      authorIsChannel := true
      fwdFrom := some { channelId := some 1, channelPost := some 100 } }

/-- A reply to post 100, used to exercise duplicated input. -/
def msgDup : TgMessage :=
  { baseMsg 9 5 "ok" with replyToMsgId := some 100 }

/-- A reply to post 100 whose text has 501 characters. -/
def msgC6 : TgMessage :=
  { baseMsg 10 6 (String.mk (List.replicate 501 'a')) with
      replyToMsgId := some 100 }

/-- A media-only message whose media class is unrecognized (maps to the
generic label `Медиа`). -/
def msgC9 : TgMessage :=
  { baseMsg 11 2 " " with media := some MediaKind.other }

/-- A message with neither text nor media. -/
def msgEmpty : TgMessage := baseMsg 12 2 ""

/-- A message whose (user-typed) text is exactly the placeholder
`[Медиа]`. -/
def msgPlaceholder : TgMessage := baseMsg 13 2 " [Медиа] "

/-- A media-only message carrying a photo. -/
def msgPhotoOnly : TgMessage :=
  { baseMsg 14 2 "  " with media := some MediaKind.photo }

/-- A channel post with text, views, reactions and forwards. -/
def postMsg : TgMessage :=
  { baseMsg 100 50 "post text" with views := 3, reactions := [2, 5], forwards := 1 }

/-- A channel post with media and text. -/
def msgMediaPost : TgMessage :=
  { baseMsg 101 51 "pic inside" with media := some MediaKind.photo }

/-- A channel post with neither text nor media. -/
def msgEmptyPost : TgMessage := baseMsg 102 52 "   "

/-- A discussion fetch returning the double-attribution message. -/
def rawC5 : Nat → List TgMessage := fun _ => [msgC1]

/-- A discussion fetch returning nothing. -/
def rawNone : Nat → List TgMessage := fun _ => []

/-! ### Helper lemmas about the loop of `find_comments_for_post` -/

/-- The loop is the `filterMap` of the extractor chain over the
first-occurrence-by-id sublist. -/
theorem find_aux_eq_filterMap (lookup : Nat → Option String) (postId channelId : Nat) :
    ∀ (msgs : List TgMessage) (seen : List Nat),
      find_comments_aux lookup postId channelId seen msgs
        = (dedupById seen msgs).filterMap (fun m => candidate lookup m postId channelId) := by
  intro msgs
  induction msgs with
  | nil => intro seen; rfl
  | cons m rest ih =>
    intro seen
    by_cases h : m.id ∈ seen
    · simp only [find_comments_aux, dedupById, if_pos h]
      exact ih seen
    · simp only [find_comments_aux, dedupById, if_neg h, List.filterMap_cons]
      cases hc : candidate lookup m postId channelId with
      | none => simpa [hc] using ih (m.id :: seen)
      | some c => simpa [hc] using ih (m.id :: seen)

/-- The loop only consults the seen set through membership of the ids that
actually occur in the input. -/
theorem find_aux_congr (lookup : Nat → Option String) (postId channelId : Nat) :
    ∀ (msgs : List TgMessage) (seen1 seen2 : List Nat),
      (∀ i ∈ msgs.map TgMessage.id, (i ∈ seen1 ↔ i ∈ seen2)) →
      find_comments_aux lookup postId channelId seen1 msgs
        = find_comments_aux lookup postId channelId seen2 msgs := by
  intro msgs
  induction msgs with
  | nil => intro _ _ _; rfl
  | cons m rest ih =>
    intro seen1 seen2 h
    have hm : m.id ∈ seen1 ↔ m.id ∈ seen2 := h m.id (by simp)
    by_cases h1 : m.id ∈ seen1
    · have h2 : m.id ∈ seen2 := hm.mp h1
      simp only [find_comments_aux, if_pos h1, if_pos h2]
      exact ih seen1 seen2 (fun i hi => h i (by simp [hi]))
    · have h2 : m.id ∉ seen2 := fun hx => h1 (hm.mpr hx)
      simp only [find_comments_aux, if_neg h1, if_neg h2]
      have hrest : ∀ i ∈ rest.map TgMessage.id,
          (i ∈ m.id :: seen1 ↔ i ∈ m.id :: seen2) := by
        intro i hi
        simp only [List.mem_cons]
        exact or_congr Iff.rfl (h i (by simp [hi]))
      cases hc : candidate lookup m postId channelId with
      | none => exact ih _ _ hrest
      | some c => rw [ih _ _ hrest]

/-- Recording an id that never occurs in the input does not change the
loop's output. -/
theorem find_aux_cons_fresh (lookup : Nat → Option String) (postId channelId : Nat)
    (x : Nat) (msgs : List TgMessage) (seen : List Nat)
    (hx : x ∉ msgs.map TgMessage.id) :
    find_comments_aux lookup postId channelId (x :: seen) msgs
      = find_comments_aux lookup postId channelId seen msgs := by
  apply find_aux_congr
  intro i hi
  have hne : i ≠ x := fun h => hx (h ▸ hi)
  simp [List.mem_cons, hne]

/-- A message whose id was already seen — in the seen set or earlier in the
input — contributes nothing. -/
theorem find_aux_dup_skip (lookup : Nat → Option String) (postId channelId : Nat)
    (m : TgMessage) (l2 : List TgMessage) :
    ∀ (l1 : List TgMessage) (seen : List Nat),
      m.id ∈ seen ∨ m.id ∈ l1.map TgMessage.id →
      find_comments_aux lookup postId channelId seen (l1 ++ m :: l2)
        = find_comments_aux lookup postId channelId seen (l1 ++ l2) := by
  intro l1
  induction l1 with
  | nil =>
    intro seen h
    have hm : m.id ∈ seen := by simpa using h
    simp only [List.nil_append, find_comments_aux, if_pos hm]
  | cons a t ih =>
    intro seen h
    have h' : m.id ∈ seen ∨ m.id = a.id ∨ m.id ∈ t.map TgMessage.id := by
      simpa [or_assoc] using h
    simp only [List.cons_append, find_comments_aux]
    by_cases ha : a.id ∈ seen
    · simp only [if_pos ha]
      apply ih
      rcases h' with h' | h' | h'
      · exact Or.inl h'
      · exact Or.inl (h' ▸ ha)
      · exact Or.inr h'
    · simp only [if_neg ha]
      have hnext : m.id ∈ a.id :: seen ∨ m.id ∈ t.map TgMessage.id := by
        rcases h' with h' | h' | h'
        · exact Or.inl (List.mem_cons_of_mem _ h')
        · exact Or.inl (h' ▸ List.mem_cons_self _ _)
        · exact Or.inr h'
      cases hc : candidate lookup a postId channelId with
      | none => simp only [List.append_eq, ih _ hnext]
      | some c => simp only [List.append_eq, ih _ hnext]

/-- A fresh-id message whose extractor chain yields nothing contributes
nothing and does not disturb the processing of its siblings. -/
theorem find_aux_drop_none (lookup : Nat → Option String) (postId channelId : Nat)
    (m : TgMessage) (l2 : List TgMessage)
    (hc : candidate lookup m postId channelId = none)
    (hfresh : m.id ∉ l2.map TgMessage.id) :
    ∀ (l1 : List TgMessage) (seen : List Nat),
      find_comments_aux lookup postId channelId seen (l1 ++ m :: l2)
        = find_comments_aux lookup postId channelId seen (l1 ++ l2) := by
  intro l1
  induction l1 with
  | nil =>
    intro seen
    simp only [List.nil_append, find_comments_aux]
    by_cases hm : m.id ∈ seen
    · simp only [if_pos hm]
    · simp only [if_neg hm, hc]
      exact find_aux_cons_fresh lookup postId channelId m.id l2 seen hfresh
  | cons a t ih =>
    intro seen
    simp only [List.cons_append, find_comments_aux]
    by_cases ha : a.id ∈ seen
    · simp only [if_pos ha]
      exact ih seen
    · simp only [if_neg ha]
      cases hca : candidate lookup a postId channelId with
      | none => simp only [List.append_eq, ih]
      | some c => simp only [List.append_eq, ih]

/-- The extractor chain never reads the `authorIsChannel` flag. -/
theorem candidate_setAuthorIsChannel (lookup : Nat → Option String) (b : Bool)
    (m : TgMessage) (postId channelId : Nat) :
    candidate lookup (setAuthorIsChannel b m) postId channelId
      = candidate lookup m postId channelId := by
  cases m; rfl

/-- `setAuthorIsChannel` preserves the message id. -/
theorem id_setAuthorIsChannel (b : Bool) (m : TgMessage) :
    (setAuthorIsChannel b m).id = m.id := by
  cases m; rfl

/-- The whole loop is invariant under rewriting every message's
`authorIsChannel` flag. -/
theorem find_aux_setAuthorIsChannel (lookup : Nat → Option String)
    (postId channelId : Nat) (b : Bool) :
    ∀ (msgs : List TgMessage) (seen : List Nat),
      find_comments_aux lookup postId channelId seen (msgs.map (setAuthorIsChannel b))
        = find_comments_aux lookup postId channelId seen msgs := by
  intro msgs
  induction msgs with
  | nil => intro seen; rfl
  | cons m rest ih =>
    intro seen
    simp only [List.map_cons, find_comments_aux, id_setAuthorIsChannel,
      candidate_setAuthorIsChannel]
    by_cases h : m.id ∈ seen
    · simp only [if_pos h]
      exact ih seen
    · simp only [if_neg h]
      cases hc : candidate lookup m postId channelId with
      | none => exact ih _
      | some c => rw [ih]

/-! ### Helper lemmas about the Python string primitives -/

/-- `s[:n]` never exceeds `n` code points. -/
theorem pySlice_toList_length (n : Nat) (s : String) :
    (pySlice n s).toList.length ≤ n :=
  List.length_take_le n s.toList

/-- `s[:n]` is the identity on strings of at most `n` code points. -/
theorem pySlice_eq_self (n : Nat) (s : String) (h : s.toList.length ≤ n) :
    pySlice n s = s := by
  unfold pySlice
  rw [List.take_of_length_le h]
  rfl

/-- `s[:n]` of a non-empty string is non-empty when `n > 0`. -/
theorem pySlice_ne_empty (n : Nat) (s : String) (hn : 0 < n) (hs : s ≠ "") :
    pySlice n s ≠ "" := by
  cases s with
  | mk data =>
    cases data with
    | nil => exact absurd rfl hs
    | cons c cs =>
      cases n with
      | zero => omega
      | succ k =>
        intro h
        exact absurd (congrArg String.data h) (by simp [pySlice, String.toList])

/-- Appending strings concatenates their code-point lists. -/
theorem toList_append (a b : String) : (a ++ b).toList = a.toList ++ b.toList := by
  cases a; cases b; rfl

/-- Every bracketed media label is short. -/
theorem bracket_label_short (mk : MediaKind) :
    ("[" ++ get_media_type (some mk) ++ "]").toList.length ≤ 500 := by
  cases mk <;> decide

/-! ### The claims -/

/-- C1 (counterexample): a message whose reply reference matches post 100
and whose text carries the pattern `#200` for a different post 200 is
attributed to BOTH posts — `find_comments_for_post` runs the extractor
chain per post, so the claimed global "at most one post per message" fails
at this input. -/
theorem C1_counterexample :
    msgC1.replyToMsgId = some 100 ∧
    extract_post_id_from_text msgC1.text 1 = some 200 ∧
    find_comments_for_post noLookup [msgC1] 100 1 ≠ [] ∧
    find_comments_for_post noLookup [msgC1] 200 1 ≠ [] := by
  decide

/-- C1 (amended): for a fixed post, the extractors are tried per message in
the order Reply, Forward, TextPattern, and the first guard that holds
decides the outcome — a matching reply reference short-circuits the forward
and text-pattern checks, a matching forward short-circuits the text-pattern
check, and a message matching none of the three yields no candidate.  (The
original claim's cross-post uniqueness does not hold, since the chain runs
independently per post.) -/
theorem C1_per_post_precedence (lookup : Nat → Option String) (m : TgMessage)
    (postId channelId : Nat) :
    (m.replyToMsgId = some postId →
       candidate lookup m postId channelId = process_comment_message lookup m) ∧
    (m.replyToMsgId ≠ some postId → fwdMatch m channelId postId = true →
       candidate lookup m postId channelId = process_comment_message lookup m) ∧
    (m.replyToMsgId ≠ some postId → fwdMatch m channelId postId = false →
       ¬(m.text ≠ "" ∧ extract_post_id_from_text m.text channelId = some postId) →
       candidate lookup m postId channelId = none) := by
  refine ⟨fun h1 => ?_, fun h1 h2 => ?_, fun h1 h2 h3 => ?_⟩
  · simp [candidate, h1]
  · simp [candidate, h1, h2]
  · simp [candidate, h1, h2, h3]

/-- C1 (witness): the three precedence conjuncts applied at concrete
messages — a reply that also text-matches, a pure forward, and a message
matching nothing. -/
theorem C1_per_post_precedence_witness :
    candidate noLookup msgC1 100 1 = process_comment_message noLookup msgC1 ∧
    candidate noLookup msgFwd 100 1 = process_comment_message noLookup msgFwd ∧
    candidate noLookup msgPlain 100 1 = none :=
  ⟨(C1_per_post_precedence noLookup msgC1 100 1).1 (by decide),
   (C1_per_post_precedence noLookup msgFwd 100 1).2.1 (by decide) (by decide),
   (C1_per_post_precedence noLookup msgPlain 100 1).2.2 (by decide) (by decide)
     (by decide)⟩

/-- C2 (counterexample): eleven valid replies to post 100 with descending
timestamps produce a bucket of eleven comments in input order — neither the
claimed cap of 10 nor the claimed ascending chronological order holds. -/
theorem C2_counterexample :
    ¬((find_comments_for_post noLookup msgsC2 100 1).length ≤ 10 ∧
      List.Chain' (· ≤ ·)
        ((find_comments_for_post noLookup msgsC2 100 1).map CommentInfo.date)) := by
  decide

/-- C2 (amended): the resolved comment list is NOT capped and NOT sorted:
it is exactly the extractor-chain output over the first-occurrence-by-id
messages, one comment per matching processable message, in input-list
order. -/
theorem C2_uncapped_input_order (lookup : Nat → Option String)
    (msgs : List TgMessage) (postId channelId : Nat) :
    find_comments_for_post lookup msgs postId channelId
      = (dedupById [] msgs).filterMap (fun m => candidate lookup m postId channelId) :=
  find_aux_eq_filterMap lookup postId channelId msgs []

/-- C3 (counterexample): a message posted as the channel itself
(`authorIsChannel = true`) whose forward origin matches channel 1 / post
100 DOES land in post 100's bucket — no author-is-channel exclusion exists
in the code. -/
theorem C3_counterexample :
    msgC3.authorIsChannel = true ∧
    fwdMatch msgC3 1 100 = true ∧
    find_comments_for_post noLookup [msgC3] 100 1 ≠ [] := by
  decide

/-- C3 (amended): the resolver is entirely insensitive to the
`authorIsChannel` flag: rewriting the flag on every input message, to
either value, leaves every bucket unchanged — messages posted as the
channel are matched (or not) exactly like any other message, and are never
excluded on that ground. -/
theorem C3_author_flag_irrelevant (lookup : Nat → Option String) (b : Bool)
    (msgs : List TgMessage) (postId channelId : Nat) :
    find_comments_for_post lookup (msgs.map (setAuthorIsChannel b)) postId channelId
      = find_comments_for_post lookup msgs postId channelId :=
  find_aux_setAuthorIsChannel lookup postId channelId b msgs []

/-- C4: a discussion message whose id already occurred earlier in the input
is skipped by the `processed_message_ids` set, so a duplicated message
contributes no additional comment: the bucket equals the one computed
without the duplicate occurrence. -/
theorem C4_duplicate_ignored (lookup : Nat → Option String) (postId channelId : Nat)
    (l1 : List TgMessage) (m : TgMessage) (l2 : List TgMessage)
    (h : m.id ∈ l1.map TgMessage.id) :
    find_comments_for_post lookup (l1 ++ m :: l2) postId channelId
      = find_comments_for_post lookup (l1 ++ l2) postId channelId :=
  find_aux_dup_skip lookup postId channelId m l2 l1 [] (Or.inr h)

/-- C4 (witness): feeding the same reply twice yields the same bucket as
feeding it once. -/
theorem C4_duplicate_ignored_witness :
    find_comments_for_post noLookup [msgDup, msgDup] 100 1
      = find_comments_for_post noLookup [msgDup] 100 1 :=
  C4_duplicate_ignored noLookup 100 1 [msgDup] msgDup [] (by decide)

/-- C5: every post record produced by the pipeline reports a `comments`
counter equal to the length of the comment list attached to the same
record; the platform reply counter is never consulted (it does not even
occur in the pipeline's inputs). -/
theorem C5_count_matches_list (lookup : Nat → Option String)
    (msgs : List TgMessage) (channelId : Nat) (channelUsername : Option String)
    (discussionGroupId : Option Nat) (includeComments : Bool)
    (raw : Nat → List TgMessage) :
    ∀ pr ∈ process_channel_posts_with_comments lookup msgs channelId channelUsername
        discussionGroupId includeComments raw,
      pr.2.post_info.comments = pr.2.comments.length := by
  intro pr hpr
  simp only [process_channel_posts_with_comments, List.mem_map] at hpr
  obtain ⟨m, hm, rfl⟩ := hpr
  rfl

/-- C5 (witness): the counter/list agreement at a concrete analysis run
with one post and one matching comment. -/
theorem C5_count_matches_list_witness :
    (100, process_post noLookup 1 (some "chan") (some 77) true [msgC1]
        postMsg).2.post_info.comments
      = (100, process_post noLookup 1 (some "chan") (some 77) true [msgC1]
          postMsg).2.comments.length :=
  C5_count_matches_list noLookup [postMsg] 1 (some "chan") (some 77) true rawC5 _
    (by decide)

set_option maxRecDepth 40000 in
/-- C6 (counterexample): a 501-character comment text is hard-sliced to 500
characters with NO ellipsis marker — the output carries neither `…` nor
`...`, refuting the claimed visible truncation marker. -/
theorem C6_counterexample :
    msgC6.text.toList.length = 501 ∧
    (process_comment_message noLookup msgC6).map (fun c => hasEllipsisMarker c.text)
      = some false := by
  decide

/-- C6 (amended): every produced comment text is at most 500 characters
long (a bare Python slice `text[:500]`; no ellipsis marker is added). -/
theorem C6_hard_truncation (lookup : Nat → Option String) (m : TgMessage)
    (c : CommentInfo) (h : process_comment_message lookup m = some c) :
    c.text.toList.length ≤ 500 := by
  simp only [process_comment_message] at h
  split at h
  · exact absurd h (by simp)
  split at h
  · exact absurd h (by simp)
  split at h
  · exact absurd h (by simp)
  injection h with h2
  subst h2
  exact pySlice_toList_length 500 (commentText m)

/-- C6 (witness): the bound applied to the concrete comment produced from a
short reply. -/
theorem C6_hard_truncation_witness :
    (CommentInfo.mk "Unknown" 5 "ok").text.toList.length ≤ 500 :=
  C6_hard_truncation noLookup msgDup (CommentInfo.mk "Unknown" 5 "ok") (by decide)

/-- C7: enrichment failures are locally contained.  First, whenever the
sender reference is absent or every sender lookup fails, a produced comment
has author exactly `"Unknown"` while its date (and text) are still those of
the message.  Second, a message whose processing yields nothing leaves the
processing of every sibling message untouched: dropping it from the input
list does not change the bucket. -/
theorem C7_failure_isolated :
    (∀ (lookup : Nat → Option String) (m : TgMessage) (c : CommentInfo),
        (∀ s, m.senderId = some s → lookup s = none) →
        process_comment_message lookup m = some c →
        c.author = "Unknown" ∧ c.date = m.date) ∧
    (∀ (lookup : Nat → Option String) (postId channelId : Nat)
        (l1 : List TgMessage) (m : TgMessage) (l2 : List TgMessage),
        candidate lookup m postId channelId = none →
        m.id ∉ l2.map TgMessage.id →
        find_comments_for_post lookup (l1 ++ m :: l2) postId channelId
          = find_comments_for_post lookup (l1 ++ l2) postId channelId) := by
  constructor
  · intro lookup m c hs h
    have ha : authorName lookup m = "Unknown" := by
      unfold authorName
      cases hm : m.senderId with
      | none => rfl
      | some s =>
        by_cases h0 : s = 0
        · simp [h0]
        · simp [h0, hs s hm]
    simp only [process_comment_message] at h
    split at h
    · exact absurd h (by simp)
    split at h
    · exact absurd h (by simp)
    split at h
    · exact absurd h (by simp)
    injection h with h2
    subst h2
    exact ⟨ha, rfl⟩
  · intro lookup postId channelId l1 m l2 hc hfresh
    exact find_aux_drop_none lookup postId channelId m l2 hc hfresh l1 []

/-- C7 (witness): the `"Unknown"` fallback at a concrete sender-less reply,
and sibling isolation around a concrete content-less message. -/
theorem C7_failure_isolated_witness :
    ((CommentInfo.mk "Unknown" 5 "ok").author = "Unknown" ∧
     (CommentInfo.mk "Unknown" 5 "ok").date = msgDup.date) ∧
    find_comments_for_post noLookup ([msgPlain] ++ msgEmpty :: [msgDup]) 100 1
      = find_comments_for_post noLookup ([msgPlain] ++ [msgDup]) 100 1 :=
  ⟨C7_failure_isolated.1 noLookup msgDup (CommentInfo.mk "Unknown" 5 "ok")
      (fun s hs => Option.noConfusion (show (Option.none : Option Nat) = some s from hs))
      (by decide),
   C7_failure_isolated.2 noLookup 100 1 [msgPlain] msgEmpty [msgDup]
      (by decide) (by decide)⟩

/-- C8: with no linked discussion group (`discussion_group_id = none`) the
analysis still succeeds: the output is independent of whatever the
discussion fetch would return (no fetch is consulted), and every post
carries an empty comment list with a zero comments counter. -/
theorem C8_no_discussion_group (lookup : Nat → Option String)
    (msgs : List TgMessage) (channelId : Nat) (channelUsername : Option String)
    (includeComments : Bool) (raw1 raw2 : Nat → List TgMessage) :
    process_channel_posts_with_comments lookup msgs channelId channelUsername none
        includeComments raw1
      = process_channel_posts_with_comments lookup msgs channelId channelUsername none
          includeComments raw2
    ∧ ∀ pr ∈ process_channel_posts_with_comments lookup msgs channelId channelUsername
          none includeComments raw1,
        pr.2.comments = [] ∧ pr.2.post_info.comments = 0 := by
  constructor
  · simp [process_channel_posts_with_comments, optTruthy]
  · intro pr hpr
    simp only [process_channel_posts_with_comments, List.mem_map] at hpr
    obtain ⟨m, hm, rfl⟩ := hpr
    simp [process_post, get_post_comments, optTruthy]

/-- C8 (witness): the empty bucket and zero counter at a concrete post of a
channel without a discussion group. -/
theorem C8_no_discussion_group_witness :
    (100, process_post noLookup 1 (some "chan") none true [] postMsg).2.comments = []
    ∧ (100, process_post noLookup 1 (some "chan") none true []
        postMsg).2.post_info.comments = 0 :=
  (C8_no_discussion_group noLookup [postMsg] 1 (some "chan") true rawC5 rawNone).2 _
    (by decide)

/-! ### Helper lemmas about `buildContent` -/

/-- A string with a non-empty code-point list is non-empty. -/
theorem ne_empty_of_toList_ne_nil (s : String) (h : s.toList ≠ []) : s ≠ "" := by
  intro he
  apply h
  rw [he]
  rfl

/-- Code points of `"["`. -/
theorem toList_lbracket : "[".toList = ['['] := rfl

/-- Code points of `"]"`. -/
theorem toList_rbracket : "]".toList = [']'] := rfl

/-- Code points of `"] "`. -/
theorem toList_rbracket_space : "] ".toList = [']', ' '] := rfl

/-- A bracketed label is never the empty string. -/
theorem bracket_ne_empty (x : String) : ("[" ++ x ++ "]") ≠ "" := by
  apply ne_empty_of_toList_ne_nil
  simp only [toList_append]
  show (['['] ++ x.toList) ++ [']'] ≠ []
  simp

/-- A bracketed label followed by a space and more text is never the empty
string. -/
theorem bracket_sp_ne_empty (x y : String) : ("[" ++ x ++ "] " ++ y) ≠ "" := by
  apply ne_empty_of_toList_ne_nil
  simp only [toList_append]
  show ((['['] ++ x.toList) ++ [']', ' ']) ++ y.toList ≠ []
  simp

/-- The post content never collapses to the empty string before slicing. -/
theorem buildContent_ne_empty (m : TgMessage) : buildContent m ≠ "" := by
  unfold buildContent
  by_cases hx : rawContent m = ""
  · rw [if_pos hx]
    decide
  · rw [if_neg hx]
    exact hx

/-- With media present, the built content starts with the bracketed media
label. -/
theorem buildContent_media_exists (m : TgMessage) (mk : MediaKind)
    (h : m.media = some mk) :
    ∃ rest : List Char,
      (buildContent m).toList
        = ("[" ++ get_media_type (some mk) ++ "]").toList ++ rest := by
  by_cases ht : pyStrip m.text = ""
  · have hr : rawContent m = "[" ++ get_media_type (some mk) ++ "]" := by
      simp only [rawContent, h]
      rw [if_neg (by simp [ht])]
    unfold buildContent
    rw [hr, if_neg (bracket_ne_empty (get_media_type (some mk)))]
    exact ⟨[], by simp⟩
  · have hr : rawContent m
        = "[" ++ get_media_type (some mk) ++ "] " ++ pyStrip m.text := by
      simp only [rawContent, h]
      rw [if_pos ht]
    unfold buildContent
    rw [hr, if_neg (bracket_sp_ne_empty (get_media_type (some mk)) (pyStrip m.text))]
    refine ⟨' ' :: (pyStrip m.text).toList, ?_⟩
    simp [toList_append, toList_lbracket, toList_rbracket, toList_rbracket_space,
      List.append_assoc]

/-- Slicing to 1000 code points keeps the bracketed media label as the
leading segment of the content. -/
theorem content_take_label (m : TgMessage) (mk : MediaKind) (h : m.media = some mk) :
    (pySlice 1000 (buildContent m)).toList.take
        ("[" ++ get_media_type (some mk) ++ "]").toList.length
      = ("[" ++ get_media_type (some mk) ++ "]").toList := by
  obtain ⟨rest, hrest⟩ := buildContent_media_exists m mk h
  have h1 : (pySlice 1000 (buildContent m)).toList
      = (("[" ++ get_media_type (some mk) ++ "]").toList ++ rest).take 1000 := by
    show (buildContent m).toList.take 1000 = _
    rw [hrest]
  rw [h1, List.take_take]
  rw [min_eq_left (le_trans (bracket_label_short mk) (by omega))]
  exact List.take_left _ _

/-- With neither text nor media, the content is the empty-post literal. -/
theorem content_empty_post (m : TgMessage) (h1 : m.media = none)
    (h2 : pyStrip m.text = "") :
    pySlice 1000 (buildContent m) = "[Пустой пост]" := by
  rw [show buildContent m = "[Пустой пост]" by
    simp [buildContent, rawContent, h1, h2]]
  decide

/-- C9 (counterexample): a media-only message whose media class maps to the
generic label produces the text `[Медиа]`, which the placeholder filter
then drops — contrary to the claim that every media-only matching message
yields a bracketed-placeholder comment. -/
theorem C9_counterexample :
    pyStrip msgC9.text = "" ∧ msgC9.media = some MediaKind.other ∧
    process_comment_message noLookup msgC9 = none := by
  decide

/-- C9 (amended): a signal-matching message with no usable content yields
no comment — empty stripped text with no media, or text equal to the
placeholders `[Медиа]` / `[Комментарий]`, is dropped; a media-only message
yields a comment whose text is the bracketed media label, EXCEPT when the
media kind is unrecognized (label `Медиа`), in which case the placeholder
filter drops it too. -/
theorem C9_content_rules (lookup : Nat → Option String) (m : TgMessage) :
    (pyStrip m.text = "" → m.media = none →
       process_comment_message lookup m = none) ∧
    ((pyStrip m.text = "[Медиа]" ∨ pyStrip m.text = "[Комментарий]") →
       process_comment_message lookup m = none) ∧
    (∀ mk, pyStrip m.text = "" → m.media = some mk → mk ≠ MediaKind.other →
       process_comment_message lookup m
         = some { author := authorName lookup m, date := m.date,
                  text := "[" ++ get_media_type (some mk) ++ "]" }) ∧
    (pyStrip m.text = "" → m.media = some MediaKind.other →
       process_comment_message lookup m = none) := by
  refine ⟨fun h1 h2 => ?_, fun h => ?_, fun mk h1 h2 h3 => ?_, fun h1 h2 => ?_⟩
  · simp [process_comment_message, commentText, h1, h2]
  · rcases h with h | h <;> simp [process_comment_message, commentText, h]
  · have hsl : pySlice 500 ("[" ++ get_media_type (some mk) ++ "]")
        = "[" ++ get_media_type (some mk) ++ "]" :=
      pySlice_eq_self _ _ (bracket_label_short mk)
    cases mk <;> simp_all [process_comment_message, commentText, get_media_type] <;>
      decide
  · simp [process_comment_message, commentText, h1, h2, get_media_type]

/-- C9 (witness): the four content rules applied at concrete messages — an
entirely empty message, a user-typed `[Медиа]` text, a photo-only message,
and an unrecognized-media-only message. -/
theorem C9_content_rules_witness :
    process_comment_message noLookup msgEmpty = none ∧
    process_comment_message noLookup msgPlaceholder = none ∧
    process_comment_message noLookup msgPhotoOnly
      = some { author := "Unknown", date := 2,
               text := "[" ++ get_media_type (some MediaKind.photo) ++ "]" } ∧
    process_comment_message noLookup msgC9 = none :=
  ⟨(C9_content_rules noLookup msgEmpty).1 (by decide) (by decide),
   (C9_content_rules noLookup msgPlaceholder).2.1 (Or.inl (by decide)),
   (C9_content_rules noLookup msgPhotoOnly).2.2.1 MediaKind.photo (by decide)
     (by decide) (by decide),
   (C9_content_rules noLookup msgC9).2.2.2 (by decide) (by decide)⟩

/-- C10: every post record's content is non-empty and at most 1000 code
points long; a post with media carries the bracketed media label as the
leading segment of its content (truncation to 1000 happens after the
prefixing); and a post with neither text nor media gets the literal
`[Пустой пост]`. -/
theorem C10_content_rules (lookup : Nat → Option String) (channelId : Nat)
    (channelUsername : Option String) (discussionGroupId : Option Nat)
    (includeComments : Bool) (discussionMessages msgs : List TgMessage)
    (raw : Nat → List TgMessage) :
    (∀ pr ∈ process_channel_posts_with_comments lookup msgs channelId channelUsername
        discussionGroupId includeComments raw,
        pr.2.post_info.content ≠ "" ∧ pr.2.post_info.content.toList.length ≤ 1000) ∧
    (∀ (m : TgMessage) (mk : MediaKind), m.media = some mk →
        (process_post lookup channelId channelUsername discussionGroupId
            includeComments discussionMessages m).post_info.content.toList.take
            ("[" ++ get_media_type (some mk) ++ "]").toList.length
          = ("[" ++ get_media_type (some mk) ++ "]").toList) ∧
    (∀ m : TgMessage, m.media = none → pyStrip m.text = "" →
        (process_post lookup channelId channelUsername discussionGroupId
            includeComments discussionMessages m).post_info.content
          = "[Пустой пост]") := by
  refine ⟨?_, ?_, ?_⟩
  · intro pr hpr
    simp only [process_channel_posts_with_comments, List.mem_map] at hpr
    obtain ⟨m, hm, rfl⟩ := hpr
    exact ⟨pySlice_ne_empty 1000 (buildContent m) (by omega) (buildContent_ne_empty m),
      pySlice_toList_length 1000 (buildContent m)⟩
  · intro m mk h
    exact content_take_label m mk h
  · intro m h1 h2
    exact content_empty_post m h1 h2

/-- C10 (witness): the content rules at a concrete run — a text post in the
pipeline output, a photo post, and an empty post. -/
theorem C10_content_rules_witness :
    ((100, process_post noLookup 1 (some "chan") (some 77) true [msgC1]
        postMsg).2.post_info.content ≠ "" ∧
      (100, process_post noLookup 1 (some "chan") (some 77) true [msgC1]
        postMsg).2.post_info.content.toList.length ≤ 1000) ∧
    (process_post noLookup 1 (some "chan") (some 77) true [msgC1]
        msgMediaPost).post_info.content.toList.take
        ("[" ++ get_media_type (some MediaKind.photo) ++ "]").toList.length
      = ("[" ++ get_media_type (some MediaKind.photo) ++ "]").toList ∧
    (process_post noLookup 1 (some "chan") (some 77) true [msgC1]
        msgEmptyPost).post_info.content = "[Пустой пост]" :=
  ⟨(C10_content_rules noLookup 1 (some "chan") (some 77) true [msgC1] [postMsg]
      rawC5).1 _ (by decide),
   (C10_content_rules noLookup 1 (some "chan") (some 77) true [msgC1] [postMsg]
      rawC5).2.1 msgMediaPost MediaKind.photo (by decide),
   (C10_content_rules noLookup 1 (some "chan") (some 77) true [msgC1] [postMsg]
      rawC5).2.2 msgEmptyPost (by decide) (by decide)⟩

end TgApp
